import Mathlib

/-!
Shallow embedding of the core of the vscode-sailpoint-identitynow extension:
the paginated tree-item loaders (`AccessProfilesTreeItem` / `RolesTreeItem`),
the `TreeManager` administrative operations, the single-flight name-to-id
cache (`CacheService`) and the job poller (`waifForJob`), together with
theorems settling the frozen claims about them.
-/

/-- A record returned by the remote listing endpoint
(`paginatedSearchAccessProfiles` / `paginatedSearchRoles` response data:
each element carries a `name` and an `id`). -/
structure APRecord where
  name : String
  id : String
deriving DecidableEq, Repr

/-- A child node of a pageable tree item: a real collection item
(`AccessProfileTreeItem` / `RoleTreeItem`), the synthetic `LoadMoreNode`
continuation marker, or a `MessageNode` empty-state message. -/
inductive TreeNode where
  | item (name id : String)
  | loadMoreNode
  | messageNode (msg : String)
deriving DecidableEq, Repr

/-- True exactly on real collection items, not on the synthetic
`LoadMoreNode` / `MessageNode` nodes. -/
def isRealItem : TreeNode → Bool
  | .item _ _ => true
  | _ => false

/-- Mutable state of a pageable tree item (`AccessProfilesTreeItem` and
`RolesTreeItem` carry identical pagination state): `currentOffset`, `limit`,
`filters`, the private `_total`, and the accumulated `children`. -/
structure PageableState where
  currentOffset : Nat
  limit : Nat
  filters : String
  total : Nat
  children : List TreeNode
deriving DecidableEq, Repr

/-- State produced by the `AccessProfilesTreeItem` / `RolesTreeItem`
constructor: offset 0, limit 250, filters "*", `_total = 0`, no children. -/
def initPageableState : PageableState :=
  { currentOffset := 0, limit := 250, filters := "*", total := 0, children := [] }

/-- The arguments of one call to the remote paginated search
(`paginatedSearchAccessProfiles(filters, limit, offset, needTotal)`). -/
structure FetchCall where
  filters : String
  limit : Nat
  offset : Nat
  needTotal : Bool
deriving DecidableEq, Repr

/-- The page served by the remote listing endpoint for a collection `coll`:
the window of size `limit` at `offset` (the response `data`). -/
def fetchPage (coll : List APRecord) (limit offset : Nat) : List APRecord :=
  (coll.drop offset).take limit

/-- Everything one `loadMore()` call does: the successor state, the fetch
call it issued, the node popped from `children` before fetching (if any),
the page of records the fetch returned, and whether a `LoadMoreNode`
continuation marker was pushed. -/
structure LoadMoreResult where
  state : PageableState
  call : FetchCall
  popped : Option TreeNode
  fetched : List APRecord
  pushedMore : Bool
deriving DecidableEq, Repr

/-- One `loadMore()` call of `AccessProfilesTreeItem` / `RolesTreeItem`
against a remote collection `coll` (`msg` is the class's empty-state label):
pop the last child if `children` is nonempty; call the paginated search with
`(filters, limit, currentOffset, _total === 0)`; if `_total` is 0, capture it
from the response header; if it is still 0, replace `children` with a single
`MessageNode`; otherwise append the mapped page to `children`, and when
`hasMore` (that is `_total > children.length`) still holds push a
`LoadMoreNode` and advance `currentOffset` by `limit`. -/
def loadMore (msg : String) (coll : List APRecord) (st : PageableState) : LoadMoreResult :=
  let popped : Option TreeNode :=
    if st.children.length > 0 then st.children.getLast? else none
  let children0 : List TreeNode :=
    if st.children.length > 0 then st.children.dropLast else st.children
  let call : FetchCall :=
    { filters := st.filters, limit := st.limit, offset := st.currentOffset,
      needTotal := st.total == 0 }
  let data := fetchPage coll st.limit st.currentOffset
  let total1 := if st.total == 0 then coll.length else st.total
  if total1 == 0 then
    { state := { st with total := total1, children := [TreeNode.messageNode msg] },
      call := call, popped := popped, fetched := data, pushedMore := false }
  else
    let children1 := children0 ++ data.map (fun r => TreeNode.item r.name r.id)
    if children1.length < total1 then
      { state := { st with total := total1,
                           children := children1 ++ [TreeNode.loadMoreNode],
                           currentOffset := st.currentOffset + st.limit },
        call := call, popped := popped, fetched := data, pushedMore := true }
    else
      { state := { st with total := total1, children := children1 },
        call := call, popped := popped, fetched := data, pushedMore := false }

/-- The `hasMore` getter: `_total > children.length`. -/
def hasMore (st : PageableState) : Bool :=
  st.children.length < st.total

/-- The `reset()` method: `currentOffset = 0`, `children = []`; the private
`_total` field is not touched. -/
def resetLoader (st : PageableState) : PageableState :=
  { st with currentOffset := 0, children := [] }

/-- Iterate `loadMore` `n` times, collecting the fetch calls issued. -/
def runLoadMore (msg : String) (coll : List APRecord) :
    Nat → PageableState → PageableState × List FetchCall
  | 0, st => (st, [])
  | n + 1, st =>
    let r := loadMore msg coll st
    let rest := runLoadMore msg coll n r.state
    (rest.1, r.call :: rest.2)

/-- Number of real collection items accumulated (ignores the synthetic
continuation marker and message nodes). -/
def realCount (st : PageableState) : Nat :=
  (st.children.filter isRealItem).length

/-- The empty-state label used by `AccessProfilesTreeItem`. -/
def apMsg : String := "No access profile found"

/-- A remote collection of 10 access profiles. -/
def coll10 : List APRecord :=
  [⟨"n0", "i0"⟩, ⟨"n1", "i1"⟩, ⟨"n2", "i2"⟩, ⟨"n3", "i3"⟩, ⟨"n4", "i4"⟩,
   ⟨"n5", "i5"⟩, ⟨"n6", "i6"⟩, ⟨"n7", "i7"⟩, ⟨"n8", "i8"⟩, ⟨"n9", "i9"⟩]

/-- A loader configured with page size 4 (the `limit` field set to 4). -/
def init4 : PageableState :=
  { currentOffset := 0, limit := 4, filters := "*", total := 0, children := [] }

/-- A `TaskStatusBeta` object as far as the `TreeManager` inspects it: its
`completionStatus` string. -/
structure TaskStatus where
  completionStatus : String
deriving DecidableEq, Repr

/-- The string value of `TaskStatusBetaCompletionStatusEnum.Success` from the
sailpoint-api-client library. -/
def successEnumValue : String := "SUCCESS"

/-- JavaScript `toUpperCase` on the ASCII strings the completion-status
comparison meets: uppercase every character. -/
def toUpperStr (s : String) : String :=
  String.mk (s.data.map Char.toUpper)

/-- The guard of `TreeManager.resetSource`:
`task?.completionStatus.toUpperCase() === TaskStatusBetaCompletionStatusEnum.Success.toUpperCase()`
(an undefined `task` makes the strict comparison false). -/
def isSuccessTask : Option TaskStatus → Bool
  | some t => toUpperStr t.completionStatus == toUpperStr successEnumValue
  | none => false

/-- Outcome of one `TreeManager` operation: the value the returned promise
resolves to, and how many backend job-start calls the operation issued. -/
structure OpResult where
  result : Option TaskStatus
  jobStarts : Nat
deriving DecidableEq, Repr

/-- `TreeManager.resetAccounts(item, doConfirm)`: when `doConfirm` holds and
the user declines, return undefined without starting anything; otherwise
start the account-reset job once, poll it with `waifForJob` (whose outcome
`poll` is `none` when the user cancels), format the task, and return the
task (the `withProgress` result is returned by the method). -/
def resetAccounts (doConfirm confirmAns : Bool) (poll : Option TaskStatus) : OpResult :=
  if doConfirm && !confirmAns then
    { result := none, jobStarts := 0 }
  else
    { result := poll, jobStarts := 1 }

/-- `TreeManager.resetEntitlements(item, doConfirm)`: when `doConfirm` holds
and the user declines, return undefined; otherwise start the
entitlement-reset job once, poll it, format the task — the progress callback
ends in `return undefined` and the method does not return the `withProgress`
result, so the method resolves to undefined in every case. -/
def resetEntitlements (doConfirm confirmAns : Bool) (poll : Option TaskStatus) : OpResult :=
  if doConfirm && !confirmAns then
    { result := none, jobStarts := 0 }
  else
    let _task := poll
    { result := none, jobStarts := 1 }

/-- `TreeManager.aggregateEntitlements(item)`: starts the
entitlement-aggregation job once, polls and formats; declared
`Promise<void>`, so it resolves to undefined. -/
def aggregateEntitlements (poll : Option TaskStatus) : OpResult :=
  let _task := poll
  { result := none, jobStarts := 1 }

/-- `TreeManager.aggregateSource(item, disableOptimization)`: starts the
account-aggregation job once, polls and formats; declared `Promise<void>`,
so it resolves to undefined. -/
def aggregateSource (poll : Option TaskStatus) : OpResult :=
  let _task := poll
  { result := none, jobStarts := 1 }

/-- The environment of one `resetSource` run: the answer to its confirm
dialog and the `waifForJob` outcomes of the two phases (`none` models a
cancelled / undefined task). -/
structure ResetSourceEnv where
  confirmAnswer : Bool
  accountsPoll : Option TaskStatus
  entitlementsPoll : Option TaskStatus

/-- How many job-start calls of each kind one `resetSource` run issued. -/
structure ResetSourceTrace where
  accountResetStarts : Nat
  entitlementResetStarts : Nat
deriving DecidableEq, Repr

/-- `TreeManager.resetSource(item)`: confirm; if declined, stop. Otherwise
run `resetAccounts(item, false)` and, exactly when the returned task's
completion status compares equal to `Success` (case-insensitively), run
`resetEntitlements(item, false)`. -/
def resetSource (env : ResetSourceEnv) : ResetSourceTrace :=
  if !env.confirmAnswer then
    { accountResetStarts := 0, entitlementResetStarts := 0 }
  else
    let ra := resetAccounts false env.confirmAnswer env.accountsPoll
    if isSuccessTask ra.result then
      let re := resetEntitlements false env.confirmAnswer env.entitlementsPoll
      { accountResetStarts := ra.jobStarts, entitlementResetStarts := re.jobStarts }
    else
      { accountResetStarts := ra.jobStarts, entitlementResetStarts := 0 }

/-- Result of a cache resolution attempt, as seen by a caller. -/
inductive CResult (V : Type) where
  | ok (v : V)
  | err (e : String)
deriving DecidableEq, Repr

/-- Modelled from the spec: the state of one cache entry of `CacheService`
(the single-flight superclass of `AccessProfileNameToIdCacheService`, whose
source is not under src/): an entry is either pending with the list of
attached callers, or resolved with a value. -/
inductive EntryState (V : Type) where
  | pendingE (waiters : List Nat)
  | resolvedE (v : V)
deriving DecidableEq, Repr

/-- Modelled from the spec: the state of a `CacheService` instance under the
single-threaded cooperative scheduling model: the entry table, the number of
resolver invocations so far, and the results delivered to callers. -/
structure CacheState (V : Type) where
  entries : List (String × EntryState V)
  resolverCalls : Nat
  delivered : List (Nat × CResult V)
deriving DecidableEq, Repr

/-- The empty cache. -/
def emptyCache (V : Type) : CacheState V :=
  { entries := [], resolverCalls := 0, delivered := [] }

/-- Replace the entry for key `k` by `e`. -/
def updateEntry {V : Type} (entries : List (String × EntryState V)) (k : String)
    (e : EntryState V) : List (String × EntryState V) :=
  entries.map (fun p => if p.1 == k then (k, e) else p)

/-- Modelled from the spec: a caller `c` issues `get(k)` — a resolved entry
answers immediately; a pending entry attaches the caller to the outstanding
resolution; a missing entry creates a pending entry and invokes the resolver
(counted), which will settle later. -/
def getStep {V : Type} (c : Nat) (k : String) (st : CacheState V) : CacheState V :=
  match st.entries.lookup k with
  | some (.resolvedE v) =>
    { st with delivered := st.delivered ++ [(c, CResult.ok v)] }
  | some (.pendingE ws) =>
    { st with entries := updateEntry st.entries k (.pendingE (ws ++ [c])) }
  | none =>
    { st with entries := st.entries ++ [(k, EntryState.pendingE [c])],
              resolverCalls := st.resolverCalls + 1 }

/-- Modelled from the spec: the outstanding resolution for `k` succeeds with
`v` — the entry becomes resolved and every attached caller receives `v`. -/
def settleOk {V : Type} (k : String) (v : V) (st : CacheState V) : CacheState V :=
  match st.entries.lookup k with
  | some (.pendingE ws) =>
    { st with entries := updateEntry st.entries k (.resolvedE v),
              delivered := st.delivered ++ ws.map (fun c => (c, CResult.ok v)) }
  | _ => st

/-- Modelled from the spec: the outstanding resolution for `k` fails with
error `e` — the entry is removed (the key stays eligible for a fresh
attempt) and the error is propagated to every attached caller. -/
def settleErr {V : Type} (k : String) (e : String) (st : CacheState V) : CacheState V :=
  match st.entries.lookup k with
  | some (.pendingE ws) =>
    { st with entries := st.entries.filter (fun p => !(p.1 == k)),
              delivered := st.delivered ++ ws.map (fun c => (c, CResult.err e)) }
  | _ => st

/-- Callers `0, 1, …, n-1` issue `get(k)` one after the other while the
resolution (if any) is still outstanding. -/
def applyGets {V : Type} (k : String) : Nat → CacheState V → CacheState V
  | 0, st => st
  | n + 1, st => getStep n k (applyGets k n st)

/-- Remote job status levels, as the poller classifies them. -/
inductive JobStatus where
  | pendingJ
  | running
  | success
  | warning
  | failure
deriving DecidableEq, Repr

/-- Modelled from the spec: Success, Warning and Failure are the terminal
statuses. -/
def isTerminal : JobStatus → Bool
  | .success => true
  | .warning => true
  | .failure => true
  | _ => false

/-- The category of an outcome report. -/
inductive Category where
  | success
  | warning
  | failure
  | cancelled
deriving DecidableEq, Repr

/-- Category of a terminal job status. -/
def categoryOf : JobStatus → Category
  | .success => Category.success
  | .warning => Category.warning
  | _ => Category.failure

/-- Modelled from the spec: the polling loop of `waifForJob` (the JobPoller,
whose source is not under src/), following the spec's algorithm: loop —
fetch the job status; if it is terminal, return its category at once; if the
cancellation signal has been raised, return `Cancelled`; otherwise wait and
repeat. `statusAt i` is the status the `i`-th fetch returns, `cancel i` says
whether the signal is raised when iteration `i` checks it, `fuel` bounds the
recursion (the source loop is unbounded), and the result carries the number
of status fetches performed. -/
def pollAux (statusAt : Nat → JobStatus) (cancel : Nat → Bool) :
    Nat → Nat → Option (Category × Nat)
  | 0, _ => none
  | fuel + 1, i =>
    let st := statusAt i
    if isTerminal st then some (categoryOf st, i + 1)
    else if cancel i then some (Category.cancelled, i + 1)
    else pollAux statusAt cancel fuel (i + 1)

/-- Run the poller from the first fetch. -/
def poll (statusAt : Nat → JobStatus) (cancel : Nat → Bool) (fuel : Nat) :
    Option (Category × Nat) :=
  pollAux statusAt cancel fuel 0

/-- True when an optional popped node is not a real collection item. -/
def noRealItem (o : Option TreeNode) : Bool :=
  o.all fun n => !isRealItem n

/-- True when none of the fetch calls requested the total count. -/
def noNeedTotal (cs : List FetchCall) : Bool :=
  cs.all fun c => !c.needTotal

/-- The delivery list in which callers `0 … n-1` all received `v`. -/
def deliveredOk (V : Type) (n : Nat) (v : V) : List (Nat × CResult V) :=
  (List.range n).map fun c => (c, CResult.ok v)

/-- A concrete resolver for witnesses: every name maps to 42. -/
def c2res : String → Nat := fun _ => 42

/-- A status source whose job is never terminal. -/
def alwaysRunning : Nat → JobStatus := fun _ => JobStatus.running

/-- A cancellation signal that is raised from the start. -/
def alwaysCancelled : Nat → Bool := fun _ => true

/-- Projections of `loadMore` are stable across its branches: the popped
node is the last child of a nonempty accumulated sequence. -/
theorem loadMore_popped (msg : String) (coll : List APRecord) (st : PageableState) :
    (loadMore msg coll st).popped =
      if st.children.length > 0 then st.children.getLast? else none := by
  unfold loadMore
  dsimp only
  repeat first | rfl | split

/-- When the stored total is nonzero, a `loadMore` call leaves it unchanged
and requests the page with `needTotal = false`. -/
theorem loadMore_total_ne (msg : String) (coll : List APRecord) (st : PageableState)
    (h : st.total ≠ 0) :
    (loadMore msg coll st).state.total = st.total
    ∧ (loadMore msg coll st).call.needTotal = false := by
  have h0 : (st.total == 0) = false := beq_eq_false_iff_ne.mpr h
  simp only [loadMore, h0, Bool.false_eq_true, if_false]
  constructor
  all_goals repeat first | rfl | split

/-- When the stored total is nonzero, any run of `loadMore` calls preserves
it and never requests the total again. -/
theorem runLoadMore_total_ne (msg : String) (coll : List APRecord) :
    ∀ (n : Nat) (st : PageableState), st.total ≠ 0 →
      (runLoadMore msg coll n st).1.total = st.total
      ∧ noNeedTotal (runLoadMore msg coll n st).2 = true := by
  intro n
  induction n with
  | zero =>
    intro st _
    exact ⟨rfl, rfl⟩
  | succ n ih =>
    intro st h
    have hl := loadMore_total_ne msg coll st h
    have h2 : (loadMore msg coll st).state.total ≠ 0 := by
      rw [hl.1]; exact h
    have ihs := ih (loadMore msg coll st).state h2
    constructor
    · show (runLoadMore msg coll (n + 1) st).1.total = st.total
      simp only [runLoadMore]
      rw [ihs.1, hl.1]
    · show noNeedTotal (runLoadMore msg coll (n + 1) st).2 = true
      simp only [runLoadMore, noNeedTotal, List.all_cons]
      rw [hl.2]
      have := ihs.2
      simp only [noNeedTotal] at this
      simp [this]

/-- Claim C1: in a confirmed `resetSource` run, the entitlement-reset job is
started exactly once when the account-reset phase's task compares equal to
`Success`, and zero times for every other outcome (Warning, Failure, or a
cancelled / undefined task). -/
theorem c1_reset_source_gate (env : ResetSourceEnv) :
    (resetSource env).entitlementResetStarts =
      if env.confirmAnswer && isSuccessTask env.accountsPoll then 1 else 0 := by
  rcases env with ⟨ca, ap, ep⟩
  cases ca
  · simp [resetSource]
  · by_cases hs : isSuccessTask ap = true
    · simp [resetSource, resetAccounts, resetEntitlements, hs]
    · simp [resetSource, resetAccounts, resetEntitlements, hs]

/-- Claim C3: against a remote collection of 10 items with page size 4, one,
two and three `loadMore()` calls accumulate 4, 8 and 10 real items (the
continuation marker not counted) and `hasMore` is true, true and false. -/
theorem c3_pagination_counts :
    realCount (runLoadMore apMsg coll10 1 init4).1 = 4
    ∧ hasMore (runLoadMore apMsg coll10 1 init4).1 = true
    ∧ realCount (runLoadMore apMsg coll10 2 init4).1 = 8
    ∧ hasMore (runLoadMore apMsg coll10 2 init4).1 = true
    ∧ realCount (runLoadMore apMsg coll10 3 init4).1 = 10
    ∧ hasMore (runLoadMore apMsg coll10 3 init4).1 = false := by
  decide

/-- Claim C4 counterexample: the third `loadMore()` call on the
total-10/limit-4 loader fetches a successful non-empty page (2 items), yet
`currentOffset` stays at 8 instead of increasing by the limit 4 — the code
advances the offset only when it pushes a continuation marker. -/
theorem c4_offset_counterexample :
    (loadMore apMsg coll10 (runLoadMore apMsg coll10 2 init4).1).fetched ≠ []
    ∧ (runLoadMore apMsg coll10 2 init4).1.currentOffset = 8
    ∧ (runLoadMore apMsg coll10 2 init4).1.limit = 4
    ∧ (loadMore apMsg coll10 (runLoadMore apMsg coll10 2 init4).1).state.currentOffset = 8 := by
  decide

/-- Claim C4 amended: after a `loadMore()` call, `currentOffset` has
increased by exactly `limit` when the call pushed a continuation marker, and
is unchanged otherwise — including after a successful non-empty fetch of the
final page. -/
theorem c4_offset_amended (msg : String) (coll : List APRecord) (st : PageableState) :
    (loadMore msg coll st).state.currentOffset =
      if (loadMore msg coll st).pushedMore then st.currentOffset + st.limit
      else st.currentOffset := by
  unfold loadMore
  dsimp only
  repeat first | rfl | split

/-- Claim C5 counterexample: in the state reached by three `loadMore()`
calls on the total-10/limit-4 loader (ten real items, no trailing marker), a
further `loadMore()` call pops the real accumulated item `n9`. -/
theorem c5_pop_counterexample :
    (loadMore apMsg coll10 (runLoadMore apMsg coll10 3 init4).1).popped
      = some (TreeNode.item "n9" "i9")
    ∧ isRealItem (TreeNode.item "n9" "i9") = true := by
  decide

/-- Claim C5 amended: `loadMore()` unconditionally removes the last element
of a nonempty accumulated sequence; only in states whose sequence is empty
or ends with a synthetic node (continuation marker or message) — the states
in which the program triggers `loadMore` — is no real item removed. -/
theorem c5_pop_amended (msg : String) (coll : List APRecord) (st : PageableState)
    (h : noRealItem st.children.getLast? = true) :
    noRealItem (loadMore msg coll st).popped = true := by
  rw [loadMore_popped]
  split
  · exact h
  · rfl

/-- Claim C5 amended, witness: after one `loadMore()` call the sequence ends
with the continuation marker, and the next call removes no real item. -/
theorem c5_pop_amended_witness :
    noRealItem (runLoadMore apMsg coll10 1 init4).1.children.getLast? = true
    ∧ noRealItem (loadMore apMsg coll10 (runLoadMore apMsg coll10 1 init4).1).popped = true :=
  ⟨by decide, c5_pop_amended apMsg coll10 (runLoadMore apMsg coll10 1 init4).1 (by decide)⟩

/-- Claim C6: when the first fetch reports a total of 0, one `loadMore()`
call leaves exactly one empty-state message node as the accumulated sequence
and `hasMore` is false. -/
theorem c6_total_zero :
    (loadMore apMsg ([] : List APRecord) initPageableState).state.children
      = [TreeNode.messageNode apMsg]
    ∧ hasMore (loadMore apMsg ([] : List APRecord) initPageableState).state = false := by
  decide

/-- Claim C7 counterexample: `resetEntitlements` polls a job to the terminal
`SUCCESS` task yet resolves to undefined, not to the terminal task — the
method never returns the `withProgress` result. -/
theorem c7_return_counterexample :
    (resetEntitlements false true (some ⟨"SUCCESS"⟩)).result ≠ some ⟨"SUCCESS"⟩
    ∧ (resetEntitlements false true (some ⟨"SUCCESS"⟩)).result = none := by
  decide

/-- Claim C7 amended: only `resetAccounts` returns the terminal task to its
caller (undefined when cancelled or when a requested confirmation is
declined); `resetEntitlements`, `aggregateEntitlements` and
`aggregateSource` resolve to undefined whatever the polled outcome. -/
theorem c7_returns_amended (dc ca : Bool) (p : Option TaskStatus) :
    (resetAccounts dc ca p).result = (if dc && !ca then none else p)
    ∧ (resetEntitlements dc ca p).result = none
    ∧ (aggregateEntitlements p).result = none
    ∧ (aggregateSource p).result = none := by
  refine ⟨?_, ?_, rfl, rfl⟩
  · unfold resetAccounts
    split
    · simp_all
    · simp_all
  · unfold resetEntitlements
    split
    · rfl
    · rfl

/-- Claim C10: `reset()` zeroes the offset and empties the accumulated
children but leaves the stored total untouched, so when that total is
nonzero every subsequent `loadMore()` requests its page with
`needTotal = false` and the `hasMore` computation keeps using the stale
pre-reset total. -/
theorem c10_reset_stale_total (msg : String) (coll : List APRecord)
    (st : PageableState) (n : Nat) (h : st.total ≠ 0) :
    (resetLoader st).currentOffset = 0
    ∧ (resetLoader st).children = []
    ∧ (resetLoader st).total = st.total
    ∧ (runLoadMore msg coll n (resetLoader st)).1.total = st.total
    ∧ noNeedTotal (runLoadMore msg coll n (resetLoader st)).2 = true := by
  have h' : (resetLoader st).total ≠ 0 := h
  have hr := runLoadMore_total_ne msg coll n (resetLoader st) h'
  exact ⟨rfl, rfl, rfl, hr.1, hr.2⟩

/-- Claim C10, witness: the loader that fetched the 10-item collection once
(total 10), reset and paged twice more. -/
theorem c10_reset_stale_total_witness :
    (runLoadMore apMsg coll10 1 init4).1.total ≠ 0
    ∧ ((resetLoader (runLoadMore apMsg coll10 1 init4).1).currentOffset = 0
      ∧ (resetLoader (runLoadMore apMsg coll10 1 init4).1).children = []
      ∧ (resetLoader (runLoadMore apMsg coll10 1 init4).1).total
          = (runLoadMore apMsg coll10 1 init4).1.total
      ∧ (runLoadMore apMsg coll10 2 (resetLoader (runLoadMore apMsg coll10 1 init4).1)).1.total
          = (runLoadMore apMsg coll10 1 init4).1.total
      ∧ noNeedTotal
          (runLoadMore apMsg coll10 2 (resetLoader (runLoadMore apMsg coll10 1 init4).1)).2
          = true) :=
  ⟨by decide, c10_reset_stale_total apMsg coll10 (runLoadMore apMsg coll10 1 init4).1 2 (by decide)⟩

/-- After `n ≥ 1` gets on key `k` from the empty cache, the entry for `k` is
pending with callers `0 … n-1` attached and the resolver was invoked exactly
once. -/
theorem applyGets_pending (V : Type) (k : String) :
    ∀ n : Nat, 1 ≤ n →
      applyGets (V := V) k n (emptyCache V) =
        { entries := [(k, EntryState.pendingE (List.range n))],
          resolverCalls := 1, delivered := [] } := by
  intro n
  induction n with
  | zero => intro h; exact absurd h (by decide)
  | succ n ih =>
    intro _
    by_cases hn : 1 ≤ n
    · show getStep n k (applyGets k n (emptyCache V)) = _
      rw [ih hn]
      simp [getStep, updateEntry, List.lookup, List.range_succ]
    · have hn0 : n = 0 := by omega
      subst hn0
      show getStep 0 k (applyGets k 0 (emptyCache V)) = _
      simp [applyGets, getStep, emptyCache, List.lookup, List.range_succ]

/-- Claim C2: N ≥ 1 concurrent `get(k)` calls on one cache instance whose
resolver `r` succeeds invoke the resolver exactly once, and all N callers
receive the identical resolved value `r k`. -/
theorem c2_single_flight (V : Type) (r : String → V) (k : String) (n : Nat) (h : 1 ≤ n) :
    (settleOk k (r k) (applyGets k n (emptyCache V))).resolverCalls = 1
    ∧ (settleOk k (r k) (applyGets k n (emptyCache V))).delivered
        = deliveredOk V n (r k) := by
  rw [applyGets_pending V k n h]
  simp [settleOk, updateEntry, List.lookup, deliveredOk]

/-- Claim C2, witness: three concurrent callers, resolver `c2res`. -/
theorem c2_single_flight_witness :
    1 ≤ 3
    ∧ (settleOk "a" (c2res "a") (applyGets "a" 3 (emptyCache Nat))).resolverCalls = 1
    ∧ (settleOk "a" (c2res "a") (applyGets "a" 3 (emptyCache Nat))).delivered
        = deliveredOk Nat 3 (c2res "a") :=
  ⟨by decide, (c2_single_flight Nat c2res "a" 3 (by decide)).1,
    (c2_single_flight Nat c2res "a" 3 (by decide)).2⟩

/-- Claim C8: a resolver that fails on the first attempt and succeeds later
never poisons the key — the first `get(k)` propagates the error `e` and
leaves no entry for `k`, and the next `get(k)` invokes the resolver afresh
(two invocations in total) and delivers the new value `v`. -/
theorem c8_no_poison (V : Type) (k e : String) (v : V) :
    (settleErr k e (getStep 0 k (emptyCache V))).entries.lookup k = none
    ∧ (settleErr k e (getStep 0 k (emptyCache V))).delivered = [(0, CResult.err e)]
    ∧ (settleOk k v (getStep 1 k (settleErr k e (getStep 0 k (emptyCache V))))).resolverCalls = 2
    ∧ (settleOk k v (getStep 1 k (settleErr k e (getStep 0 k (emptyCache V))))).delivered
        = [(0, CResult.err e), (1, CResult.ok v)] := by
  simp [getStep, settleErr, settleOk, emptyCache, updateEntry, List.lookup, List.filter]

/-- Claim C9 counterexample: with the cancellation signal raised before the
first status fetch and a never-terminal job, the poller still performs one
status fetch before returning `Cancelled` — the loop fetches the status
before it checks the signal, so the fetch count is 1, not 0. -/
theorem c9_cancel_counterexample :
    poll alwaysRunning alwaysCancelled 5 = some (Category.cancelled, 1)
    ∧ (1 : Nat) ≠ 0 := by
  decide

/-- Claim C9 amended: when the cancellation signal is raised before the
first status fetch and that first fetch returns a non-terminal status, the
poller returns category `Cancelled` after exactly one status fetch. -/
theorem c9_cancel_amended (statusAt : Nat → JobStatus) (cancel : Nat → Bool)
    (fuel : Nat) (hc : cancel 0 = true) (hs : isTerminal (statusAt 0) = false)
    (hf : 1 ≤ fuel) :
    poll statusAt cancel fuel = some (Category.cancelled, 1) := by
  cases fuel with
  | zero => exact absurd hf (by decide)
  | succ f => simp [poll, pollAux, hs, hc]

/-- Claim C9 amended, witness: a pre-raised signal and a job that stays
running. -/
theorem c9_cancel_amended_witness :
    alwaysCancelled 0 = true
    ∧ isTerminal (alwaysRunning 0) = false
    ∧ 1 ≤ 5
    ∧ poll alwaysRunning alwaysCancelled 5 = some (Category.cancelled, 1) :=
  ⟨rfl, rfl, by decide,
    c9_cancel_amended alwaysRunning alwaysCancelled 5 rfl rfl (by decide)⟩
